import Mathlib

/-!
Verification of GymRegister-Frontend's two algorithmic components against
their natural-language specification:

* the image quality assessor (`src/utils/imageAnalysisUtils.ts`,
  class `ImageAnalysisUtils`), and
* the analysis job poller (`src/pages/EquipmentScanner.tsx`,
  `pollAnalysisResult` / `checkStatus` / `resetScanner`).

The embedding is shallow: JavaScript numbers are modelled as exact
rationals (`ℚ`), with square roots taken in `ℝ`; `Uint8ClampedArray`
pixel data is modelled as a byte function together with its length,
exactly as the source passes `data` and `data.length` around.
-/

namespace GymRegister

/-- JavaScript `Math.round` on an exact rational: round half toward +∞,
i.e. `⌊q + 1/2⌋`. -/
def jsRound (q : ℚ) : ℤ := ⌊q + 1/2⌋

/-- JavaScript `Math.round` on a real number (used after `Math.sqrt`). -/
noncomputable def jsRoundR (x : ℝ) : ℤ := ⌊x + 1/2⌋

/-- One RGBA sample of a decoded canvas image. -/
structure Pixel where
  r : ℕ
  g : ℕ
  b : ℕ
  a : ℕ
deriving DecidableEq

/-- The luma of a pixel: `0.299*R + 0.587*G + 0.114*B` (alpha ignored),
the "standard formula" used throughout `imageAnalysisUtils.ts`. -/
def luma (p : Pixel) : ℚ := 0.299 * p.r + 0.587 * p.g + 0.114 * p.b

/-- Luma of a pixel of an image given by a pixel function (spec-side
2-D view of the image used for the Sobel refinement statement). -/
def lumaPix (pix : ℕ → ℕ → Pixel) (x y : ℕ) : ℚ := luma (pix x y)

/-- The flat RGBA byte layout of a `w`-wide canvas image, as produced by
`ctx.getImageData`: byte `4*(y*w+x)+c` is channel `c` of pixel `(x,y)`.
This is the `data : Uint8ClampedArray` the TypeScript functions receive;
its length for a `w×h` image is `4*(w*h)`. -/
def imgData (pix : ℕ → ℕ → Pixel) (w : ℕ) : ℕ → ℕ := fun i =>
  let p := i / 4
  let px := pix (p % w) (p / w)
  if i % 4 = 0 then px.r
  else if i % 4 = 1 then px.g
  else if i % 4 = 2 then px.b
  else px.a

/-- `0.299 * data[i] + 0.587 * data[i+1] + 0.114 * data[i+2]`: the
luminance expression appearing in `calculateBrightness`,
`calculateContrast` and `getGrayscale`. -/
def lumaAt (d : ℕ → ℕ) (i : ℕ) : ℚ :=
  0.299 * d i + 0.587 * d (i + 1) + 0.114 * d (i + 2)

/-- `ImageAnalysisUtils.calculateBrightness`: the loop
`for (i = 0; i < data.length; i += 4) sum += 0.299*data[i] + …`
followed by `Math.round(sum / (data.length / 4))`.  `n` is
`data.length`; the loop body runs for each `i = 4*k` with `4*k < n`,
i.e. `k < ⌈n/4⌉`. -/
def calculateBrightness (d : ℕ → ℕ) (n : ℕ) : ℤ :=
  jsRound ((∑ k ∈ Finset.range ((n + 3) / 4), lumaAt d (4 * k)) / ((n : ℚ) / 4))

/-- `ImageAnalysisUtils.calculateContrast`: recompute the (rounded)
brightness, accumulate `(luminance - brightness)^2`, and return
`Math.round(Math.sqrt(variance / (data.length / 4)))`. -/
noncomputable def calculateContrast (d : ℕ → ℕ) (n : ℕ) : ℤ :=
  jsRoundR (Real.sqrt
    (((∑ k ∈ Finset.range ((n + 3) / 4),
        (lumaAt d (4 * k) - calculateBrightness d n) ^ 2) / ((n : ℚ) / 4) : ℚ)))

/-- `ImageAnalysisUtils.getGrayscale(data, idx)`: bounds-guarded luma
read — `if (idx < 0 || idx >= data.length) return 0`. -/
def getGrayscale (d : ℕ → ℕ) (n : ℕ) (idx : ℤ) : ℚ :=
  if idx < 0 ∨ (n : ℤ) ≤ idx then 0 else lumaAt d idx.toNat

/-- The horizontal Sobel gradient `gx` computed in
`calculateSharpness` at flat index `idx` of a `width`-wide image:
six `getGrayscale` reads at offsets `±width*4 ± 4` and `±4`. -/
def sobelGx (d : ℕ → ℕ) (n : ℕ) (idx : ℤ) (width : ℕ) : ℚ :=
  -1 * getGrayscale d n (idx - width * 4 - 4) +
  1 * getGrayscale d n (idx - width * 4 + 4) +
  -2 * getGrayscale d n (idx - 4) +
  2 * getGrayscale d n (idx + 4) +
  -1 * getGrayscale d n (idx + width * 4 - 4) +
  1 * getGrayscale d n (idx + width * 4 + 4)

/-- The vertical Sobel gradient `gy` computed in `calculateSharpness`. -/
def sobelGy (d : ℕ → ℕ) (n : ℕ) (idx : ℤ) (width : ℕ) : ℚ :=
  -1 * getGrayscale d n (idx - width * 4 - 4) +
  -2 * getGrayscale d n (idx - width * 4) +
  -1 * getGrayscale d n (idx - width * 4 + 4) +
  1 * getGrayscale d n (idx + width * 4 - 4) +
  2 * getGrayscale d n (idx + width * 4) +
  1 * getGrayscale d n (idx + width * 4 + 4)

/-- `ImageAnalysisUtils.calculateSharpness`: loop `y` over
`[1, height-1)`, `x` over `[1, width-1)`, accumulate
`Math.sqrt(gx*gx + gy*gy)` at `idx = (y*width + x)*4` and count the
iterations; return `Math.round(count > 0 ? sum/count : 0)`. -/
noncomputable def calculateSharpness (d : ℕ → ℕ) (n width height : ℕ) : ℤ :=
  let sum : ℝ :=
    ∑ y ∈ Finset.Ico 1 (height - 1), ∑ x ∈ Finset.Ico 1 (width - 1),
      Real.sqrt (((sobelGx d n ((y * width + x) * 4) width) ^ 2 +
                  (sobelGy d n ((y * width + x) * 4) width) ^ 2 : ℚ))
  let count : ℕ := (height - 1 - 1) * (width - 1 - 1)
  jsRoundR (if 0 < count then sum / count else 0)

/-- The quality tier union type
`'excellent' | 'good' | 'fair' | 'poor'`. -/
inductive Quality where
  | excellent
  | good
  | fair
  | poor
deriving DecidableEq

/-- `ImageAnalysisUtils.determineQuality`: a score accumulated from four
banded if/else-if chains, then thresholded into a tier. -/
def determineQuality (brightness contrast sharpness : ℤ) (pixels : ℕ) : Quality :=
  let score : ℕ := 0
  -- Brightness score (optimal range: 120-180)
  let score := score +
    (if 120 ≤ brightness ∧ brightness ≤ 180 then 3
     else if 100 ≤ brightness ∧ brightness ≤ 200 then 2
     else if 80 ≤ brightness ∧ brightness ≤ 220 then 1 else 0)
  -- Contrast score
  let score := score +
    (if 50 ≤ contrast ∧ contrast ≤ 80 then 3
     else if 30 ≤ contrast ∧ contrast ≤ 100 then 2
     else if 20 ≤ contrast ∧ contrast ≤ 120 then 1 else 0)
  -- Sharpness score
  let score := score +
    (if 15 ≤ sharpness then 3
     else if 10 ≤ sharpness then 2
     else if 5 ≤ sharpness then 1 else 0)
  -- Resolution score
  let score := score +
    (if 2073600 ≤ pixels then 3
     else if 921600 ≤ pixels then 2
     else if 307200 ≤ pixels then 1 else 0)
  if 10 ≤ score then .excellent
  else if 7 ≤ score then .good
  else if 4 ≤ score then .fair
  else .poor

/-- The five advisory strings plus the optimal message, verbatim from
`generateRecommendations`. -/
def msgLightingLow : String := "📡 Increase lighting or move to a brighter area"

def msgLightingHigh : String := "☀️ Reduce lighting or avoid direct sunlight"

def msgContrast : String := "🎨 Improve contrast by adjusting lighting or background"

def msgSharpness : String := "🎯 Hold camera steady and ensure equipment is in focus"

def msgResolution : String := "📱 Move closer to equipment or use higher camera resolution"

def msgOptimal : String := "✨ Image quality is optimal for analysis!"

/-- `ImageAnalysisUtils.generateRecommendations`: a sequence of pushes
guarded by deficiency conditions, then the optimal message if nothing
was pushed. -/
def generateRecommendations (brightness contrast sharpness : ℤ) (pixels : ℕ) :
    List String :=
  let recommendations : List String := []
  -- Brightness recommendations
  let recommendations :=
    if brightness < 80 then recommendations ++ [msgLightingLow]
    else if 220 < brightness then recommendations ++ [msgLightingHigh]
    else recommendations
  -- Contrast recommendations
  let recommendations :=
    if contrast < 20 then recommendations ++ [msgContrast] else recommendations
  -- Sharpness recommendations
  let recommendations :=
    if sharpness < 5 then recommendations ++ [msgSharpness] else recommendations
  -- Resolution recommendations
  let recommendations :=
    if pixels < 307200 then recommendations ++ [msgResolution] else recommendations
  -- General recommendations
  if recommendations = [] then [msgOptimal] else recommendations

/-- The result record returned by `ImageAnalysisUtils.analyzeImageQuality`. -/
structure ImageQualityMetrics where
  width : ℕ
  height : ℕ
  megapixels : ℚ
  brightness : ℤ
  contrast : ℤ
  sharpness : ℤ
  quality : Quality
  recommendations : List String

/-- `ImageAnalysisUtils.analyzeImageQuality` on the pixel data of a
`w×h` canvas (`data.length = 4*(w*h)`). -/
noncomputable def analyzeImageQuality (pix : ℕ → ℕ → Pixel) (w h : ℕ) :
    ImageQualityMetrics :=
  let d := imgData pix w
  let n := 4 * (w * h)
  let brightness := calculateBrightness d n
  let contrast := calculateContrast d n
  let sharpness := calculateSharpness d n w h
  { width := w
    height := h
    megapixels := (jsRound ((w * h : ℚ) / 1000000 * 10) : ℚ) / 10
    brightness := brightness
    contrast := contrast
    sharpness := sharpness
    quality := determineQuality brightness contrast sharpness (w * h)
    recommendations := generateRecommendations brightness contrast sharpness (w * h) }

/-! ## The analysis job poller (`EquipmentScanner.tsx`) -/

/-- One detected equipment item of the backend's analysis payload
(interface `EquipmentItem`). -/
structure EquipmentItem where
  type : String
  weight : Option String
  description : String
  condition : String
  suggested_asset_tag : String
  location_in_image : String
deriving DecidableEq

/-- The `result` field of a completed analysis
(interface `AnalysisResultResponse.result`). -/
structure AnalysisResultData where
  asset_tags : List String
  equipment : List EquipmentItem
  image_quality : String
  total_items : ℕ
  recommendations : String
  confidence_score : ℚ
deriving DecidableEq

/-- The status-poll response (interface `AnalysisResultResponse`). -/
structure AnalysisResultResponse where
  id : String
  asset_tag : Option String
  original_filename : String
  status : String
  result : AnalysisResultData
  error_message : Option String
  confidence_score : ℚ
  created_at : String
  completed_at : String
  processing_time : ℚ
deriving DecidableEq

/-- The record passed to `addAnalysisResult` on completion — the commit
of the analysis into the global store (only its fields used below). -/
structure StoredAnalysisRecord where
  id : String
  timestamp : String
  item_type : String
  description : String
  condition : String
  confidence : ℚ
  notes : String
  image : String
deriving DecidableEq

/-- Builds the `addAnalysisResult` record exactly as the `completed`
branch of `checkStatus` does; `cap` is the current `capturedImage`
(`image: capturedImage || ''`). -/
def mkStoredRecord (cap : Option String) (r : AnalysisResultResponse) :
    StoredAnalysisRecord :=
  { id := r.id
    timestamp := r.created_at
    item_type := toString r.result.total_items ++ " Equipment Items"
    description := "Detected " ++ toString r.result.equipment.length ++ " equipment items"
    condition := "Analysis Complete"
    confidence := r.result.confidence_score
    notes := r.result.recommendations
    image := cap.getD "" }

/-- Externally observable effects of one poll run, in order:
`statusUpdate` is `setAnalysisStatus`, `commitResult` is
`addAnalysisResult` (the only write to the persisted store),
`toastSuccess`/`toastError` are the toasts, `setErrorMsg` is
`setError`, and `analyzingStopped` is `setIsAnalyzing(false)`. -/
inductive PollEvent where
  | statusUpdate (s : String)
  | commitResult (rec : StoredAnalysisRecord)
  | toastSuccess (msg : String)
  | toastError (msg : String)
  | setErrorMsg (msg : String)
  | analyzingStopped
deriving DecidableEq

/-- How a poll run ends: `completed`/`failed` are the two terminal
outcomes; `stalled s` records that a response with unknown status `s`
made `checkStatus` return without scheduling anything and without
reaching a terminal state (`isAnalyzing` stays `true`); `hung` marks a
run that consumed the whole supplied response list while still waiting
(theorems always supply enough responses to avoid it). -/
inductive PollOutcome where
  | completed (r : AnalysisResultResponse)
  | failed (msg : String)
  | stalled (s : String)
  | hung
deriving DecidableEq

/-- Aggregated trace of a poll run: how many `getAnalysisResult` calls
were issued, the `setTimeout` delays scheduled (ms), the surfaced
events in order, and the outcome. -/
structure PollRun where
  checks : ℕ
  delays : List ℕ
  events : List PollEvent
  outcome : PollOutcome
deriving DecidableEq

/-- `const maxRetries = 30` in `pollAnalysisResult`. -/
def maxRetries : ℕ := 30

/-- The timeout message thrown when the retry budget is exhausted. -/
def timeoutMsg : String := "Analysis timed out. Please try again."

/-- The fallback error message for non-`Error` throwables. -/
def genericCheckError : String := "Failed to check analysis status"

/-- The success toast shown on completion. -/
def completedToast : String := "Equipment analysis completed!"

/-- The inner `checkStatus` closure of `pollAnalysisResult`, driven by
the list of successive responses of `analysisApi.getAnalysisResult`
(`Except.error msg` is a transport-level failure whose `Error` carries
`msg`).  `cap` is the `capturedImage` the closure reads on completion;
`retries` is the mutable counter, starting at 0.

Branches mirror the source: `completed` → set status, commit, success
toast, stop; `failed` → set status then throw (caught below: set error,
error toast, stop); `pending`/`processing` → if `retries < maxRetries`
increment and schedule another check in 2000 ms, else throw the timeout
(caught: set error, error toast, stop); any other status → set status
only and fall through (no scheduling, no terminal transition).  A
transport error is caught before `setAnalysisStatus` runs. -/
def checkStatus (cap : Option String) :
    ℕ → List (Except String AnalysisResultResponse) → PollRun
  | _, [] => ⟨0, [], [], .hung⟩
  | retries, resp :: rest =>
    match resp with
    | .error msg =>
        ⟨1, [], [.setErrorMsg msg, .toastError msg, .analyzingStopped], .failed msg⟩
    | .ok r =>
        if r.status = "completed" then
          ⟨1, [],
           [.statusUpdate r.status, .commitResult (mkStoredRecord cap r),
            .toastSuccess completedToast, .analyzingStopped],
           .completed r⟩
        else if r.status = "failed" then
          let msg := r.error_message.getD "Analysis failed"
          ⟨1, [],
           [.statusUpdate r.status, .setErrorMsg msg, .toastError msg,
            .analyzingStopped],
           .failed msg⟩
        else if r.status = "pending" ∨ r.status = "processing" then
          if retries < maxRetries then
            let tail := checkStatus cap (retries + 1) rest
            ⟨1 + tail.checks, 2000 :: tail.delays,
             .statusUpdate r.status :: tail.events, tail.outcome⟩
          else
            ⟨1, [],
             [.statusUpdate r.status, .setErrorMsg timeoutMsg,
              .toastError timeoutMsg, .analyzingStopped],
             .failed timeoutMsg⟩
        else
          ⟨1, [], [.statusUpdate r.status], .stalled r.status⟩

/-- `pollAnalysisResult`: run `checkStatus` with `retries = 0`. -/
def pollAnalysisResult (cap : Option String)
    (responses : List (Except String AnalysisResultResponse)) : PollRun :=
  checkStatus cap 0 responses

/-- The `EquipmentScanner` component state touched by `resetScanner`
and the polling flow (each field is one `useState` hook). -/
structure ScannerState where
  showCamera : Bool
  isAnalyzing : Bool
  analysisResult : Option String
  error : Option String
  capturedImage : Option String
  imageFileName : String
  currentJobId : Option String
  analysisStatus : String
deriving DecidableEq

/-- `resetScanner`: exactly four setters —
`setAnalysisResult(null); setError(null); setCapturedImage(null);
setImageFileName('')`.  It does not touch `isAnalyzing`,
`currentJobId`, the retry counter, or the pending `setTimeout`
(the component has no `clearTimeout` and no cancellation flag). -/
def resetScanner (st : ScannerState) : ScannerState :=
  { st with
    analysisResult := none
    error := none
    capturedImage := none
    imageFileName := "" }

/-! ## Spec-side definitions

These follow the specification's words, independently of the source
embedding above, and are compared with it in the refinement theorems. -/

/-- Spec: horizontal Sobel gradient with kernel `[-1,0,1;-2,0,2;-1,0,1]`
over the luma values of the 8 neighbors of interior pixel `(x,y)`. -/
def specGx (pix : ℕ → ℕ → Pixel) (x y : ℕ) : ℚ :=
  -1 * lumaPix pix (x - 1) (y - 1) + 1 * lumaPix pix (x + 1) (y - 1) +
  -2 * lumaPix pix (x - 1) y + 2 * lumaPix pix (x + 1) y +
  -1 * lumaPix pix (x - 1) (y + 1) + 1 * lumaPix pix (x + 1) (y + 1)

/-- Spec: vertical Sobel gradient, the transposed kernel
`[-1,-2,-1;0,0,0;1,2,1]`. -/
def specGy (pix : ℕ → ℕ → Pixel) (x y : ℕ) : ℚ :=
  -1 * lumaPix pix (x - 1) (y - 1) + -2 * lumaPix pix x (y - 1) +
  -1 * lumaPix pix (x + 1) (y - 1) +
  1 * lumaPix pix (x - 1) (y + 1) + 2 * lumaPix pix x (y + 1) +
  1 * lumaPix pix (x + 1) (y + 1)

/-- Spec: sharpness = round of the mean of `sqrt(gx² + gy²)` over all
interior pixels (the 1-pixel border excluded from both the sum and the
denominator, which is the count `(w-2)*(h-2)` of interior pixels). -/
noncomputable def specSharpness (pix : ℕ → ℕ → Pixel) (w h : ℕ) : ℤ :=
  jsRoundR ((∑ y ∈ Finset.Ico 1 (h - 1), ∑ x ∈ Finset.Ico 1 (w - 1),
      Real.sqrt (((specGx pix x y) ^ 2 + (specGy pix x y) ^ 2 : ℚ)))
    / (((w - 2) * (h - 2) : ℕ) : ℝ))

/-- Spec: brightness sub-score band (+3 in [120,180], +2 in [100,200],
+1 in [80,220], else 0). -/
def specSubBrightness (b : ℤ) : ℕ :=
  if 120 ≤ b ∧ b ≤ 180 then 3
  else if 100 ≤ b ∧ b ≤ 200 then 2
  else if 80 ≤ b ∧ b ≤ 220 then 1 else 0

/-- Spec: contrast sub-score band (+3 in [50,80], +2 in [30,100],
+1 in [20,120], else 0). -/
def specSubContrast (c : ℤ) : ℕ :=
  if 50 ≤ c ∧ c ≤ 80 then 3
  else if 30 ≤ c ∧ c ≤ 100 then 2
  else if 20 ≤ c ∧ c ≤ 120 then 1 else 0

/-- Spec: sharpness sub-score band (+3 if ≥15, +2 if ≥10, +1 if ≥5). -/
def specSubSharpness (s : ℤ) : ℕ :=
  if 15 ≤ s then 3 else if 10 ≤ s then 2 else if 5 ≤ s then 1 else 0

/-- Spec: resolution sub-score band on the pixel count. -/
def specSubResolution (p : ℕ) : ℕ :=
  if 2073600 ≤ p then 3 else if 921600 ≤ p then 2 else if 307200 ≤ p then 1 else 0

/-- Spec: the quality score is the sum of the four banded sub-scores. -/
def specQualityScore (b c s : ℤ) (p : ℕ) : ℕ :=
  specSubBrightness b + specSubContrast c + specSubSharpness s + specSubResolution p

/-- Spec: the four deficiency conditions of the recommendation
generator (brightness out of [80,220], contrast < 20, sharpness < 5,
pixel count < 307200). -/
def deficient (b c s : ℤ) (p : ℕ) : Prop :=
  b < 80 ∨ 220 < b ∨ c < 20 ∨ s < 5 ∨ p < 307200

instance (b c s : ℤ) (p : ℕ) : Decidable (deficient b c s p) := by
  unfold deficient; infer_instance

/-- The status string a successful poll response carries (used to state
which `setAnalysisStatus` events a run surfaces). -/
def okStatus : Except String AnalysisResultResponse → String
  | .ok r => r.status
  | .error _ => ""

/-- A poll response that keeps the loop going: a successful response
whose status is `pending` or `processing`. -/
def isNonterminalOk : Except String AnalysisResultResponse → Prop
  | .error _ => False
  | .ok r => r.status = "pending" ∨ r.status = "processing"

instance (x : Except String AnalysisResultResponse) : Decidable (isNonterminalOk x) :=
  match x with
  | .error _ => .isFalse fun h => h
  | .ok _ => inferInstanceAs (Decidable (_ ∨ _))

/-! ## Concrete fixtures used in witnesses and counterexamples -/

/-- An empty analysis payload. -/
def payload0 : AnalysisResultData := ⟨[], [], "good", 0, "", 0⟩

/-- A payload with one detected item. -/
def payload1 : AnalysisResultData :=
  ⟨["GYM-001"], [⟨"treadmill", some "120kg", "A treadmill", "good", "GYM-001", "center"⟩],
   "good", 1, "Service the belt", 1⟩

/-- A `processing` status response. -/
def procR : AnalysisResultResponse :=
  ⟨"job-1", none, "photo.jpg", "processing", payload0, none, 0, "t0", "", 0⟩

/-- A `pending` status response. -/
def pendR : AnalysisResultResponse :=
  ⟨"job-1", none, "photo.jpg", "pending", payload0, none, 0, "t0", "", 0⟩

/-- A `completed` status response carrying a result. -/
def doneR : AnalysisResultResponse :=
  ⟨"job-1", some "GYM-001", "photo.jpg", "completed", payload1, none, 1, "t0", "t4", 3⟩

/-- A response with a status string outside the four known values. -/
def unknownR : AnalysisResultResponse :=
  ⟨"job-1", none, "photo.jpg", "queued", payload0, none, 0, "t0", "", 0⟩

/-- The scanner state in the middle of a poll: a job was submitted
(`isAnalyzing = true`, `currentJobId` set, an image captured) and the
first check returned `processing`, scheduling a second check. -/
def midPollState : ScannerState :=
  ⟨false, true, none, none, some "data:image/jpeg;base64,xyz", "capture.jpg",
   some "job-1", "processing"⟩

/-- One `pending` response, as a response list. -/
def prefix1 : List (Except String AnalysisResultResponse) := [.ok pendR]

/-- A `pending` then a `processing` response. -/
def prefix2 : List (Except String AnalysisResultResponse) := [.ok pendR, .ok procR]

/-- `n` consecutive `processing` responses. -/
def procRepeat (n : ℕ) : List (Except String AnalysisResultResponse) :=
  List.replicate n (.ok procR)

/-- A single completed response, as a response list. -/
def tailDone : List (Except String AnalysisResultResponse) := [.ok doneR]

/-! ## Helper lemmas: rounding and the flat RGBA layout -/

lemma jsRoundR_ratCast (q : ℚ) : jsRoundR (q : ℝ) = jsRound q := by
  unfold jsRoundR jsRound
  rw [show ((q : ℝ) + 1/2) = (((q + 1/2 : ℚ)) : ℝ) by push_cast; ring, Rat.floor_cast]

lemma jsRoundR_zero : jsRoundR 0 = 0 := by
  unfold jsRoundR
  norm_num

lemma lumaAt_imgData (pix : ℕ → ℕ → Pixel) (w x y : ℕ) (hx : x < w) :
    lumaAt (imgData pix w) ((y * w + x) * 4) = lumaPix pix x y := by
  have h0 : (y * w + x) * 4 % 4 = 0 := by omega
  have h0' : (y * w + x) * 4 / 4 = y * w + x := by omega
  have h1 : ((y * w + x) * 4 + 1) % 4 = 1 := by omega
  have h1' : ((y * w + x) * 4 + 1) / 4 = y * w + x := by omega
  have h2 : ((y * w + x) * 4 + 2) % 4 = 2 := by omega
  have h2' : ((y * w + x) * 4 + 2) / 4 = y * w + x := by omega
  have hmx : (y * w + x) % w = x := by
    rw [Nat.add_comm, Nat.add_mul_mod_self_right, Nat.mod_eq_of_lt hx]
  have hdy : (y * w + x) / w = y := by
    rw [Nat.add_comm, Nat.add_mul_div_right x y (by omega : 0 < w),
      Nat.div_eq_of_lt hx, Nat.zero_add]
  simp only [lumaAt, imgData, h0, h0', h1, h1', h2, h2', hmx, hdy, lumaPix, luma]
  norm_num

lemma getGrayscale_imgData (pix : ℕ → ℕ → Pixel) (w h x y : ℕ) (hx : x < w) (hy : y < h) :
    getGrayscale (imgData pix w) (4 * (w * h)) (((y * w + x) * 4 : ℕ) : ℤ) = lumaPix pix x y := by
  have hin : (y * w + x) * 4 < 4 * (w * h) := by
    have hlt : y * w + x < w * h := by
      have h1 : y * w + x < (y + 1) * w := by
        have : (y + 1) * w = y * w + w := by ring
        omega
      have h2 : (y + 1) * w ≤ h * w := Nat.mul_le_mul_right w hy
      have h3 : h * w = w * h := Nat.mul_comm h w
      omega
    omega
  unfold getGrayscale
  rw [if_neg (by omega), Int.toNat_natCast]
  exact lumaAt_imgData pix w x y hx

/-! The six flat-offset reads of `sobelGx`/`sobelGy` at an interior
pixel land on the eight 2-D neighbors, with no bounds guard firing. -/

lemma sobelGx_imgData (pix : ℕ → ℕ → Pixel) (w h x y : ℕ)
    (hx1 : 1 ≤ x) (hx2 : x + 1 < w) (hy1 : 1 ≤ y) (hy2 : y + 1 < h) :
    sobelGx (imgData pix w) (4 * (w * h)) (((y * w + x) * 4 : ℕ) : ℤ) w = specGx pix x y := by
  obtain ⟨a, rfl⟩ : ∃ a, x = a + 1 := ⟨x - 1, by omega⟩
  obtain ⟨b, rfl⟩ : ∃ b, y = b + 1 := ⟨y - 1, by omega⟩
  have e1 : ((((b + 1) * w + (a + 1)) * 4 : ℕ) : ℤ) - (w : ℤ) * 4 - 4
      = (((b * w + a) * 4 : ℕ) : ℤ) := by push_cast; ring
  have e2 : ((((b + 1) * w + (a + 1)) * 4 : ℕ) : ℤ) - (w : ℤ) * 4 + 4
      = (((b * w + (a + 2)) * 4 : ℕ) : ℤ) := by push_cast; ring
  have e3 : ((((b + 1) * w + (a + 1)) * 4 : ℕ) : ℤ) - 4
      = ((((b + 1) * w + a) * 4 : ℕ) : ℤ) := by push_cast; ring
  have e4 : ((((b + 1) * w + (a + 1)) * 4 : ℕ) : ℤ) + 4
      = ((((b + 1) * w + (a + 2)) * 4 : ℕ) : ℤ) := by push_cast; ring
  have e5 : ((((b + 1) * w + (a + 1)) * 4 : ℕ) : ℤ) + (w : ℤ) * 4 - 4
      = ((((b + 2) * w + a) * 4 : ℕ) : ℤ) := by push_cast; ring
  have e6 : ((((b + 1) * w + (a + 1)) * 4 : ℕ) : ℤ) + (w : ℤ) * 4 + 4
      = ((((b + 2) * w + (a + 2)) * 4 : ℕ) : ℤ) := by push_cast; ring
  unfold sobelGx
  rw [e1, e2, e3, e4, e5, e6,
    getGrayscale_imgData pix w h a b (by omega) (by omega),
    getGrayscale_imgData pix w h (a + 2) b (by omega) (by omega),
    getGrayscale_imgData pix w h a (b + 1) (by omega) (by omega),
    getGrayscale_imgData pix w h (a + 2) (b + 1) (by omega) (by omega),
    getGrayscale_imgData pix w h a (b + 2) (by omega) (by omega),
    getGrayscale_imgData pix w h (a + 2) (b + 2) (by omega) (by omega)]
  unfold specGx
  norm_num

lemma sobelGy_imgData (pix : ℕ → ℕ → Pixel) (w h x y : ℕ)
    (hx1 : 1 ≤ x) (hx2 : x + 1 < w) (hy1 : 1 ≤ y) (hy2 : y + 1 < h) :
    sobelGy (imgData pix w) (4 * (w * h)) (((y * w + x) * 4 : ℕ) : ℤ) w = specGy pix x y := by
  obtain ⟨a, rfl⟩ : ∃ a, x = a + 1 := ⟨x - 1, by omega⟩
  obtain ⟨b, rfl⟩ : ∃ b, y = b + 1 := ⟨y - 1, by omega⟩
  have e1 : ((((b + 1) * w + (a + 1)) * 4 : ℕ) : ℤ) - (w : ℤ) * 4 - 4
      = (((b * w + a) * 4 : ℕ) : ℤ) := by push_cast; ring
  have e2 : ((((b + 1) * w + (a + 1)) * 4 : ℕ) : ℤ) - (w : ℤ) * 4
      = (((b * w + (a + 1)) * 4 : ℕ) : ℤ) := by push_cast; ring
  have e3 : ((((b + 1) * w + (a + 1)) * 4 : ℕ) : ℤ) - (w : ℤ) * 4 + 4
      = (((b * w + (a + 2)) * 4 : ℕ) : ℤ) := by push_cast; ring
  have e4 : ((((b + 1) * w + (a + 1)) * 4 : ℕ) : ℤ) + (w : ℤ) * 4 - 4
      = ((((b + 2) * w + a) * 4 : ℕ) : ℤ) := by push_cast; ring
  have e5 : ((((b + 1) * w + (a + 1)) * 4 : ℕ) : ℤ) + (w : ℤ) * 4
      = ((((b + 2) * w + (a + 1)) * 4 : ℕ) : ℤ) := by push_cast; ring
  have e6 : ((((b + 1) * w + (a + 1)) * 4 : ℕ) : ℤ) + (w : ℤ) * 4 + 4
      = ((((b + 2) * w + (a + 2)) * 4 : ℕ) : ℤ) := by push_cast; ring
  unfold sobelGy
  rw [e1, e3, e2, e4, e6, e5,
    getGrayscale_imgData pix w h a b (by omega) (by omega),
    getGrayscale_imgData pix w h (a + 1) b (by omega) (by omega),
    getGrayscale_imgData pix w h (a + 2) b (by omega) (by omega),
    getGrayscale_imgData pix w h a (b + 2) (by omega) (by omega),
    getGrayscale_imgData pix w h (a + 1) (b + 2) (by omega) (by omega),
    getGrayscale_imgData pix w h (a + 2) (b + 2) (by omega) (by omega)]
  unfold specGy
  norm_num

/-! ## Helper lemmas: uniform-color images -/

lemma lumaAt_imgData_const (p : Pixel) (w k : ℕ) :
    lumaAt (imgData (fun _ _ => p) w) (4 * k) = luma p := by
  have h0 : 4 * k % 4 = 0 := by omega
  have h1 : (4 * k + 1) % 4 = 1 := by omega
  have h2 : (4 * k + 2) % 4 = 2 := by omega
  simp only [lumaAt, imgData, h0, h1, h2, luma]
  norm_num

lemma brightness_uniform (p : Pixel) (w h : ℕ) (hwh : 0 < w * h) :
    calculateBrightness (imgData (fun _ _ => p) w) (4 * (w * h)) = jsRound (luma p) := by
  unfold calculateBrightness
  have hn : (4 * (w * h) + 3) / 4 = w * h := by omega
  rw [hn, Finset.sum_congr rfl fun k _ => lumaAt_imgData_const p w k,
    Finset.sum_const, Finset.card_range, nsmul_eq_mul]
  have hd : ((4 * (w * h) : ℕ) : ℚ) / 4 = ((w * h : ℕ) : ℚ) := by push_cast; ring
  have hne : ((w * h : ℕ) : ℚ) ≠ 0 := Nat.cast_ne_zero.mpr (by omega)
  rw [hd, mul_comm ((w * h : ℕ) : ℚ) (luma p), mul_div_assoc, div_self hne, mul_one]

lemma contrast_uniform (p : Pixel) (w h : ℕ) (hwh : 0 < w * h) :
    calculateContrast (imgData (fun _ _ => p) w) (4 * (w * h)) =
      jsRound |luma p - (jsRound (luma p) : ℚ)| := by
  unfold calculateContrast
  have hn : (4 * (w * h) + 3) / 4 = w * h := by omega
  rw [hn, brightness_uniform p w h hwh,
    Finset.sum_congr rfl fun k _ => by rw [lumaAt_imgData_const p w k],
    Finset.sum_const, Finset.card_range, nsmul_eq_mul]
  have hd : ((4 * (w * h) : ℕ) : ℚ) / 4 = ((w * h : ℕ) : ℚ) := by push_cast; ring
  have hne : ((w * h : ℕ) : ℚ) ≠ 0 := Nat.cast_ne_zero.mpr (by omega)
  rw [hd, mul_comm, mul_div_assoc, div_self hne, mul_one,
    show (((luma p - (jsRound (luma p) : ℚ)) ^ 2 : ℚ) : ℝ)
        = (((luma p - (jsRound (luma p) : ℚ)) : ℚ) : ℝ) ^ 2 by push_cast; ring,
    Real.sqrt_sq_eq_abs, ← Rat.cast_abs, jsRoundR_ratCast]

lemma specGx_const (p : Pixel) (x y : ℕ) : specGx (fun _ _ => p) x y = 0 := by
  simp only [specGx, lumaPix]
  ring

lemma specGy_const (p : Pixel) (x y : ℕ) : specGy (fun _ _ => p) x y = 0 := by
  simp only [specGy, lumaPix]
  ring

lemma sharpness_uniform (p : Pixel) (w h : ℕ) :
    calculateSharpness (imgData (fun _ _ => p) w) (4 * (w * h)) w h = 0 := by
  unfold calculateSharpness
  simp only []
  rcases Nat.eq_zero_or_pos ((h - 1 - 1) * (w - 1 - 1)) with hc | hc
  · rw [if_neg (by omega), jsRoundR_zero]
  · rw [if_pos hc, Finset.sum_eq_zero (fun y hy => Finset.sum_eq_zero (fun x hx => by
        simp only [Finset.mem_Ico] at hy hx
        rw [show ((y : ℤ) * (w : ℤ) + (x : ℤ)) * 4 = (((y * w + x) * 4 : ℕ) : ℤ) by
            push_cast; ring,
          sobelGx_imgData _ w h x y (by omega) (by omega) (by omega) (by omega),
          sobelGy_imgData _ w h x y (by omega) (by omega) (by omega) (by omega),
          specGx_const, specGy_const]
        norm_num)), zero_div, jsRoundR_zero]

lemma sharpness_degenerate (pix : ℕ → ℕ → Pixel) (w h n : ℕ) (hwh : w < 3 ∨ h < 3) :
    calculateSharpness (imgData pix w) n w h = 0 := by
  unfold calculateSharpness
  simp only []
  have hz : (h - 1 - 1) * (w - 1 - 1) = 0 := by
    rcases hwh with hw | hh
    · have : w - 1 - 1 = 0 := by omega
      rw [this, Nat.mul_zero]
    · have : h - 1 - 1 = 0 := by omega
      rw [this, Nat.zero_mul]
  simp only [hz]
  rw [if_neg (by omega), jsRoundR_zero]

/-! The metric fields of `analyzeImageQuality` are the three metric
functions applied to the image's flat data. -/

lemma analyze_brightness (pix : ℕ → ℕ → Pixel) (w h : ℕ) :
    (analyzeImageQuality pix w h).brightness
      = calculateBrightness (imgData pix w) (4 * (w * h)) := rfl

lemma analyze_contrast (pix : ℕ → ℕ → Pixel) (w h : ℕ) :
    (analyzeImageQuality pix w h).contrast
      = calculateContrast (imgData pix w) (4 * (w * h)) := rfl

lemma analyze_sharpness (pix : ℕ → ℕ → Pixel) (w h : ℕ) :
    (analyzeImageQuality pix w h).sharpness
      = calculateSharpness (imgData pix w) (4 * (w * h)) w h := rfl

/-! ## Helper lemma: runs of the poller across a non-terminal prefix

As long as the retry budget is not exhausted, each `pending` or
`processing` response adds one check, one 2000 ms delay and one status
event, and the run continues on the remaining responses with the retry
counter advanced. -/

lemma checkStatus_append_nonterminal (cap : Option String)
    (pre tail : List (Except String AnalysisResultResponse)) :
    ∀ retries : ℕ, (∀ x ∈ pre, isNonterminalOk x) → retries + pre.length ≤ maxRetries →
    checkStatus cap retries (pre ++ tail) =
      ⟨pre.length + (checkStatus cap (retries + pre.length) tail).checks,
       List.replicate pre.length 2000 ++ (checkStatus cap (retries + pre.length) tail).delays,
       pre.map (fun x => PollEvent.statusUpdate (okStatus x))
         ++ (checkStatus cap (retries + pre.length) tail).events,
       (checkStatus cap (retries + pre.length) tail).outcome⟩ := by
  induction pre with
  | nil =>
    intro retries _ _
    simp
  | cons x pre ih =>
    intro retries hpre hlen
    obtain ⟨r, rfl⟩ : ∃ r, x = .ok r := by
      cases x with
      | error e => exact absurd (hpre _ (List.mem_cons_self _ _)) (fun h => h)
      | ok r => exact ⟨r, rfl⟩
    have hst : r.status = "pending" ∨ r.status = "processing" :=
      hpre _ (List.mem_cons_self _ _)
    have hnc : ¬ r.status = "completed" := by
      rcases hst with h | h <;> rw [h] <;> decide
    have hnf : ¬ r.status = "failed" := by
      rcases hst with h | h <;> rw [h] <;> decide
    have hret : retries < maxRetries := by
      simp only [List.length_cons] at hlen
      omega
    have hidx : retries + 1 + pre.length = retries + (pre.length + 1) := by omega
    simp only [List.cons_append, checkStatus, List.append_eq]
    rw [if_neg hnc, if_neg hnf, if_pos hst, if_pos hret,
      ih (retries + 1) (fun y hy => hpre y (List.mem_cons_of_mem _ hy))
        (by simp only [List.length_cons] at hlen; omega),
      hidx]
    simp only [List.length_cons, List.replicate_succ, List.map_cons, List.cons_append,
      okStatus, PollRun.mk.injEq]
    refine ⟨by omega, ?_, ?_, ?_⟩ <;> trivial

/-! ## Claims -/

/-- C3 (amended): for every uniform-color RGBA image of size ≥ 3×3 the
quality assessment returns sharpness 0, brightness equal to the
rounded luma of the color, and contrast equal to the rounded absolute
deviation of the luma from that rounded brightness (which is 0 except
when the luma is an exact half-integer, where it is 1). -/
theorem c3_uniform_image_metrics (p : Pixel) (w h : ℕ) (hw : 3 ≤ w) (hh : 3 ≤ h) :
    (analyzeImageQuality (fun _ _ => p) w h).sharpness = 0 ∧
    (analyzeImageQuality (fun _ _ => p) w h).brightness = jsRound (luma p) ∧
    (analyzeImageQuality (fun _ _ => p) w h).contrast
      = jsRound |luma p - (jsRound (luma p) : ℚ)| := by
  have hwh : 0 < w * h := Nat.mul_pos (by omega) (by omega)
  exact ⟨by rw [analyze_sharpness]; exact sharpness_uniform p w h,
         by rw [analyze_brightness]; exact brightness_uniform p w h hwh,
         by rw [analyze_contrast]; exact contrast_uniform p w h hwh⟩

/-- C3 (counterexample to the claim as stated): the uniform 3×3 image
of color (70,0,5) has luma exactly 21.5, so the assessment returns
brightness 22 (not the luma) and contrast 1 (not 0): `Math.round`
rounds the brightness up to 22, and the population standard deviation
of the luma is then 0.5, which rounds to 1. -/
theorem c3_uniform_image_claim_counterexample :
    (analyzeImageQuality (fun _ _ => (⟨70, 0, 5, 255⟩ : Pixel)) 3 3).contrast = 1 ∧
    (analyzeImageQuality (fun _ _ => (⟨70, 0, 5, 255⟩ : Pixel)) 3 3).contrast ≠ 0 ∧
    ((analyzeImageQuality (fun _ _ => (⟨70, 0, 5, 255⟩ : Pixel)) 3 3).brightness : ℚ)
      ≠ luma ⟨70, 0, 5, 255⟩ := by
  have hl : luma (⟨70, 0, 5, 255⟩ : Pixel) = 43 / 2 := by norm_num [luma]
  have hc : (analyzeImageQuality (fun _ _ => (⟨70, 0, 5, 255⟩ : Pixel)) 3 3).contrast = 1 := by
    rw [analyze_contrast, contrast_uniform _ 3 3 (by norm_num), hl]
    norm_num [jsRound, abs_of_pos]
  have hb : (analyzeImageQuality (fun _ _ => (⟨70, 0, 5, 255⟩ : Pixel)) 3 3).brightness = 22 := by
    rw [analyze_brightness, brightness_uniform _ 3 3 (by norm_num), hl]
    norm_num [jsRound]
  refine ⟨hc, by rw [hc]; decide, by rw [hb, hl]; norm_num⟩

/-- C3 (witness): the amended claim applied to the uniform gray 3×3
image of color (100,100,100), whose luma is the integer 100. -/
theorem c3_uniform_image_metrics_witness :
    (3 ≤ 3) ∧
    ((analyzeImageQuality (fun _ _ => (⟨100, 100, 100, 255⟩ : Pixel)) 3 3).sharpness = 0 ∧
     (analyzeImageQuality (fun _ _ => (⟨100, 100, 100, 255⟩ : Pixel)) 3 3).brightness
       = jsRound (luma ⟨100, 100, 100, 255⟩) ∧
     (analyzeImageQuality (fun _ _ => (⟨100, 100, 100, 255⟩ : Pixel)) 3 3).contrast
       = jsRound |luma ⟨100, 100, 100, 255⟩
           - (jsRound (luma ⟨100, 100, 100, 255⟩) : ℚ)|) :=
  ⟨by decide, c3_uniform_image_metrics ⟨100, 100, 100, 255⟩ 3 3 (by decide) (by decide)⟩

/-- C6: for every RGBA image of size ≥ 3×3, the sharpness computed by
`calculateSharpness` (flat-index Sobel reads through the bounds-guarded
`getGrayscale`) equals the specification's value: the rounded mean over
interior pixels of `sqrt(gx² + gy²)` of the 2-D Sobel gradients of the
luma, with border pixels excluded from sum and denominator. -/
theorem c6_sharpness_matches_sobel_spec (pix : ℕ → ℕ → Pixel) (w h : ℕ)
    (hw : 3 ≤ w) (hh : 3 ≤ h) :
    (analyzeImageQuality pix w h).sharpness = specSharpness pix w h := by
  rw [analyze_sharpness]
  unfold calculateSharpness specSharpness
  simp only []
  have hc1 : h - 1 - 1 = h - 2 := by omega
  have hc2 : w - 1 - 1 = w - 2 := by omega
  have hpos : 0 < (h - 1 - 1) * (w - 1 - 1) := Nat.mul_pos (by omega) (by omega)
  rw [if_pos hpos]
  congr 1
  rw [hc1, hc2, Nat.mul_comm (h - 2) (w - 2)]
  congr 1
  refine Finset.sum_congr rfl fun y hy => Finset.sum_congr rfl fun x hx => ?_
  simp only [Finset.mem_Ico] at hy hx
  rw [show ((y : ℤ) * (w : ℤ) + (x : ℤ)) * 4 = (((y * w + x) * 4 : ℕ) : ℤ) by push_cast; ring,
    sobelGx_imgData pix w h x y (by omega) (by omega) (by omega) (by omega),
    sobelGy_imgData pix w h x y (by omega) (by omega) (by omega) (by omega)]

/-- C6 (witness): the refinement applied to a concrete 3×3 image. -/
theorem c6_sharpness_matches_sobel_spec_witness :
    (3 ≤ 3) ∧
    (analyzeImageQuality (fun x y => ⟨x, y, x + y, 255⟩) 3 3).sharpness
      = specSharpness (fun x y => ⟨x, y, x + y, 255⟩) 3 3 :=
  ⟨by decide, c6_sharpness_matches_sobel_spec (fun x y => ⟨x, y, x + y, 255⟩) 3 3
    (by decide) (by decide)⟩

/-- C7: the quality tier is determined by the sum of the four banded
sub-scores (each at most 3, total at most 12): excellent iff the score
is ≥ 10, good iff it is in [7,10), fair iff in [4,7), poor iff < 4;
and a 1920×1080 image with brightness 150, contrast 65 and sharpness
20 scores 12, is rated excellent, and gets exactly the single optimal
recommendation. -/
theorem c7_quality_score_and_tier (b c s : ℤ) (p : ℕ) :
    (determineQuality b c s p = .excellent ↔ 10 ≤ specQualityScore b c s p) ∧
    (determineQuality b c s p = .good ↔
      7 ≤ specQualityScore b c s p ∧ specQualityScore b c s p < 10) ∧
    (determineQuality b c s p = .fair ↔
      4 ≤ specQualityScore b c s p ∧ specQualityScore b c s p < 7) ∧
    (determineQuality b c s p = .poor ↔ specQualityScore b c s p < 4) ∧
    specSubBrightness b ≤ 3 ∧ specSubContrast c ≤ 3 ∧ specSubSharpness s ≤ 3 ∧
    specSubResolution p ≤ 3 ∧ specQualityScore b c s p ≤ 12 ∧
    specQualityScore 150 65 20 (1920 * 1080) = 12 ∧
    determineQuality 150 65 20 (1920 * 1080) = .excellent ∧
    generateRecommendations 150 65 20 (1920 * 1080) = [msgOptimal] := by
  have hq : determineQuality b c s p =
      (if 10 ≤ specQualityScore b c s p then Quality.excellent
       else if 7 ≤ specQualityScore b c s p then Quality.good
       else if 4 ≤ specQualityScore b c s p then Quality.fair else Quality.poor) := by
    simp only [determineQuality, specQualityScore, specSubBrightness, specSubContrast,
      specSubSharpness, specSubResolution, Nat.zero_add]
  have hb3 : specSubBrightness b ≤ 3 := by
    unfold specSubBrightness
    split_ifs <;> omega
  have hc3 : specSubContrast c ≤ 3 := by
    unfold specSubContrast
    split_ifs <;> omega
  have hs3 : specSubSharpness s ≤ 3 := by
    unfold specSubSharpness
    split_ifs <;> omega
  have hr3 : specSubResolution p ≤ 3 := by
    unfold specSubResolution
    split_ifs <;> omega
  have hbound : specQualityScore b c s p ≤ 12 := by
    unfold specQualityScore at *
    omega
  refine ⟨?_, ?_, ?_, ?_, hb3, hc3, hs3, hr3, hbound, by decide, by decide, by decide⟩ <;>
    rw [hq] <;> split_ifs with h1 h2 h3 <;> simp_all <;> omega

/-- C8: the recommendation list is never empty; it contains the
optimal message iff none of the four deficiency conditions hold; and
the deficiency messages appear in the fixed order lighting, contrast,
sharpness, resolution. -/
theorem c8_recommendations_order_and_optimal (b c s : ℤ) (p : ℕ) :
    generateRecommendations b c s p ≠ [] ∧
    (msgOptimal ∈ generateRecommendations b c s p ↔ ¬ deficient b c s p) ∧
    generateRecommendations b c s p =
      (if deficient b c s p then
        (if b < 80 then [msgLightingLow] else if 220 < b then [msgLightingHigh] else []) ++
        (if c < 20 then [msgContrast] else []) ++
        (if s < 5 then [msgSharpness] else []) ++
        (if p < 307200 then [msgResolution] else [])
      else [msgOptimal]) := by
  unfold generateRecommendations deficient
  split_ifs <;>
    simp_all [msgOptimal, msgLightingLow, msgLightingHigh, msgContrast, msgSharpness,
      msgResolution] <;>
    omega

/-- C9: the assessment is total on every image of size ≥ 1×1: all
out-of-range `getGrayscale` reads yield 0, and an image too small to
have interior pixels (width < 3 or height < 3) gets sharpness 0 from
the guarded denominator. -/
theorem c9_assessment_total_and_guarded (pix : ℕ → ℕ → Pixel) (w h : ℕ)
    (_hw : 1 ≤ w) (_hh : 1 ≤ h) :
    (∀ idx : ℤ, idx < 0 ∨ (4 * (w * h) : ℤ) ≤ idx →
        getGrayscale (imgData pix w) (4 * (w * h)) idx = 0) ∧
    (w < 3 ∨ h < 3 → (analyzeImageQuality pix w h).sharpness = 0) := by
  constructor
  · intro idx hidx
    unfold getGrayscale
    rw [if_pos]
    rcases hidx with hlt | hge
    · exact Or.inl hlt
    · refine Or.inr ?_
      push_cast
      omega
  · intro hlt
    rw [analyze_sharpness]
    exact sharpness_degenerate pix w h _ hlt

/-- C9 (witness): the guarantee applied to a 1×1 image. -/
theorem c9_assessment_total_and_guarded_witness :
    (1 ≤ 1) ∧
    ((∀ idx : ℤ, idx < 0 ∨ (4 * (1 * 1) : ℤ) ≤ idx →
        getGrayscale (imgData (fun _ _ => ⟨9, 9, 9, 255⟩) 1) (4 * (1 * 1)) idx = 0) ∧
     (1 < 3 ∨ 1 < 3 → (analyzeImageQuality (fun _ _ => ⟨9, 9, 9, 255⟩) 1 1).sharpness = 0)) :=
  ⟨by decide, c9_assessment_total_and_guarded (fun _ _ => ⟨9, 9, 9, 255⟩) 1 1
    (by decide) (by decide)⟩

/-- C4: on the status sequence [pending, processing, processing,
completed], the poller issues exactly 4 checks, schedules a 2000 ms
delay between consecutive checks, surfaces the four status updates and
the commit, and ends Completed with the final response attached. -/
theorem c4_poller_completes_after_four_checks (cap : Option String)
    (p1 p2 p3 r : AnalysisResultResponse)
    (h1 : p1.status = "pending") (h2 : p2.status = "processing")
    (h3 : p3.status = "processing") (h4 : r.status = "completed") :
    pollAnalysisResult cap [.ok p1, .ok p2, .ok p3, .ok r] =
      ⟨4, [2000, 2000, 2000],
       [.statusUpdate "pending", .statusUpdate "processing", .statusUpdate "processing",
        .statusUpdate "completed", .commitResult (mkStoredRecord cap r),
        .toastSuccess completedToast, .analyzingStopped],
       .completed r⟩ := by
  simp [pollAnalysisResult, checkStatus, h1, h2, h3, h4, maxRetries]

/-- C4 (witness): the run on concrete responses. -/
theorem c4_poller_completes_after_four_checks_witness :
    pendR.status = "pending" ∧ procR.status = "processing" ∧ doneR.status = "completed" ∧
    pollAnalysisResult (some "img") [.ok pendR, .ok procR, .ok procR, .ok doneR] =
      ⟨4, [2000, 2000, 2000],
       [.statusUpdate "pending", .statusUpdate "processing", .statusUpdate "processing",
        .statusUpdate "completed", .commitResult (mkStoredRecord (some "img") doneR),
        .toastSuccess completedToast, .analyzingStopped],
       .completed doneR⟩ :=
  ⟨by decide, by decide, by decide,
   c4_poller_completes_after_four_checks (some "img") pendR procR procR doneR
     (by decide) (by decide) (by decide) (by decide)⟩

/-- C5: a transport-level failure on any check (after any number of
non-terminal checks within the retry budget) ends the job immediately
in Failed with that error's message; no further check is issued no
matter what responses would have followed. -/
theorem c5_transport_error_immediately_fatal (cap : Option String)
    (pre tail : List (Except String AnalysisResultResponse)) (msg : String)
    (hpre : ∀ x ∈ pre, isNonterminalOk x) (hlen : pre.length ≤ maxRetries) :
    (pollAnalysisResult cap (pre ++ .error msg :: tail)).checks = pre.length + 1 ∧
    (pollAnalysisResult cap (pre ++ .error msg :: tail)).outcome = .failed msg ∧
    (pollAnalysisResult cap (pre ++ .error msg :: tail)).delays
      = List.replicate pre.length 2000 ∧
    (pollAnalysisResult cap (pre ++ .error msg :: tail)).events =
      pre.map (fun x => PollEvent.statusUpdate (okStatus x))
        ++ [.setErrorMsg msg, .toastError msg, .analyzingStopped] := by
  rw [pollAnalysisResult,
    checkStatus_append_nonterminal cap pre (.error msg :: tail) 0 hpre (by omega)]
  simp [checkStatus]

/-- C5 (witness): a transport error on check #3, after pending and
processing, with a further response supplied that is never consumed. -/
theorem c5_transport_error_immediately_fatal_witness :
    (∀ x ∈ prefix2, isNonterminalOk x) ∧
    prefix2.length ≤ maxRetries ∧
    ((pollAnalysisResult none (prefix2 ++ .error "Network Error" :: tailDone)).checks
      = prefix2.length + 1 ∧
     (pollAnalysisResult none (prefix2 ++ .error "Network Error" :: tailDone)).outcome
      = .failed "Network Error" ∧
     (pollAnalysisResult none (prefix2 ++ .error "Network Error" :: tailDone)).delays
      = List.replicate prefix2.length 2000 ∧
     (pollAnalysisResult none (prefix2 ++ .error "Network Error" :: tailDone)).events =
      prefix2.map (fun x => PollEvent.statusUpdate (okStatus x))
        ++ [.setErrorMsg "Network Error", .toastError "Network Error",
            .analyzingStopped]) :=
  ⟨by decide, by decide,
   c5_transport_error_immediately_fatal none prefix2 tailDone
     "Network Error" (by decide) (by decide)⟩

/-- C1 (amended): if the remote status never leaves pending/processing,
the poller ends Failed with the timeout message after exactly 31 status
checks — the initial check plus 30 scheduled retries, 30 delays of
2000 ms — and never issues a 32nd check. -/
theorem c1_timeout_after_31_checks (cap : Option String)
    (responses : List (Except String AnalysisResultResponse))
    (hall : ∀ x ∈ responses, isNonterminalOk x) (hlen : 31 ≤ responses.length) :
    (pollAnalysisResult cap responses).checks = 31 ∧
    (pollAnalysisResult cap responses).outcome = .failed timeoutMsg ∧
    (pollAnalysisResult cap responses).delays = List.replicate 30 2000 := by
  have hsplit : responses = responses.take 30 ++ responses.drop 30 :=
    (List.take_append_drop _ _).symm
  have hlen30 : (responses.take 30).length = 30 := by
    rw [List.length_take]
    omega
  have hpre : ∀ x ∈ responses.take 30, isNonterminalOk x :=
    fun x hx => hall x (List.mem_of_mem_take hx)
  obtain ⟨t, rest, hdrop⟩ : ∃ t rest, responses.drop 30 = t :: rest := by
    cases hd : responses.drop 30 with
    | nil =>
      exfalso
      have := List.length_drop 30 responses
      rw [hd] at this
      simp at this
      omega
    | cons t rest => exact ⟨t, rest, rfl⟩
  have htmem : t ∈ responses := by
    have : t ∈ responses.drop 30 := by
      rw [hdrop]
      exact List.mem_cons_self _ _
    exact List.mem_of_mem_drop this
  have ht : isNonterminalOk t := hall t htmem
  obtain ⟨r, rfl⟩ : ∃ r, t = .ok r := by
    cases t with
    | error e => exact absurd ht (fun h => h)
    | ok r => exact ⟨r, rfl⟩
  have hst : r.status = "pending" ∨ r.status = "processing" := ht
  have hnc : ¬ r.status = "completed" := by
    rcases hst with h | h <;> rw [h] <;> decide
  have hnf : ¬ r.status = "failed" := by
    rcases hst with h | h <;> rw [h] <;> decide
  rw [pollAnalysisResult, hsplit,
    checkStatus_append_nonterminal cap _ _ 0 hpre (by rw [hlen30]; decide),
    hlen30, hdrop]
  simp only [checkStatus, if_neg hnc, if_neg hnf, if_pos hst,
    if_neg (by decide : ¬ (0 + 30 < maxRetries))]
  simp

/-- C1 (counterexample to the claim as stated): on a run of 40
`processing` responses the poller issues 31 checks — not 30 — before
failing with the timeout message: the 31st check is performed first
and only then is the exhausted retry budget detected. -/
theorem c1_thirty_checks_counterexample :
    (pollAnalysisResult none (List.replicate 40 (.ok procR))).checks ≠ 30 ∧
    (pollAnalysisResult none (List.replicate 40 (.ok procR))).checks = 31 ∧
    (pollAnalysisResult none (List.replicate 40 (.ok procR))).outcome
      = .failed timeoutMsg := by
  decide

/-- C1 (witness): the amended claim applied to 31 processing responses. -/
theorem c1_timeout_after_31_checks_witness :
    (∀ x ∈ procRepeat 31, isNonterminalOk x) ∧
    31 ≤ (procRepeat 31).length ∧
    ((pollAnalysisResult none (procRepeat 31)).checks = 31 ∧
     (pollAnalysisResult none (procRepeat 31)).outcome = .failed timeoutMsg ∧
     (pollAnalysisResult none (procRepeat 31)).delays = List.replicate 30 2000) :=
  ⟨by decide, by decide,
   c1_timeout_after_31_checks none (procRepeat 31) (by decide) (by decide)⟩

/-- C10: a response with a status outside the four known values makes
the poller update only the displayed status label: it raises no error,
schedules no further check, commits nothing, and never reaches a
terminal outcome — the run stalls in the analyzing state. -/
theorem c10_unknown_status_stalls (cap : Option String)
    (pre tail : List (Except String AnalysisResultResponse))
    (r : AnalysisResultResponse) (hpre : ∀ x ∈ pre, isNonterminalOk x)
    (hlen : pre.length ≤ maxRetries)
    (hr : r.status ∉ (["pending", "processing", "completed", "failed"] : List String)) :
    (pollAnalysisResult cap (pre ++ .ok r :: tail)).checks = pre.length + 1 ∧
    (pollAnalysisResult cap (pre ++ .ok r :: tail)).outcome = .stalled r.status ∧
    (pollAnalysisResult cap (pre ++ .ok r :: tail)).delays
      = List.replicate pre.length 2000 ∧
    (pollAnalysisResult cap (pre ++ .ok r :: tail)).events =
      pre.map (fun x => PollEvent.statusUpdate (okStatus x))
        ++ [.statusUpdate r.status] := by
  simp only [List.mem_cons, List.not_mem_nil, or_false, not_or] at hr
  obtain ⟨hp, hpr, hc, hf⟩ := hr
  rw [pollAnalysisResult,
    checkStatus_append_nonterminal cap pre (.ok r :: tail) 0 hpre (by omega)]
  simp only [checkStatus, if_neg hc, if_neg hf,
    if_neg (by simp [hp, hpr] : ¬ (r.status = "pending" ∨ r.status = "processing"))]
  simp

/-- C10 (witness): a `queued` status on check #2 after one `pending`
response, with a further completed response that is never consumed. -/
theorem c10_unknown_status_stalls_witness :
    (∀ x ∈ prefix1, isNonterminalOk x) ∧
    prefix1.length ≤ maxRetries ∧
    unknownR.status ∉ (["pending", "processing", "completed", "failed"] : List String) ∧
    ((pollAnalysisResult none (prefix1 ++ .ok unknownR :: tailDone)).checks
        = prefix1.length + 1 ∧
     (pollAnalysisResult none (prefix1 ++ .ok unknownR :: tailDone)).outcome
        = .stalled unknownR.status ∧
     (pollAnalysisResult none (prefix1 ++ .ok unknownR :: tailDone)).delays
        = List.replicate prefix1.length 2000 ∧
     (pollAnalysisResult none (prefix1 ++ .ok unknownR :: tailDone)).events =
        prefix1.map (fun x => PollEvent.statusUpdate (okStatus x))
          ++ [.statusUpdate unknownR.status]) :=
  ⟨by decide, by decide, by decide,
   c10_unknown_status_stalls none prefix1 tailDone unknownR
     (by decide) (by decide) (by decide)⟩

/-- C2 (divergence): `resetScanner` performs only the four display
setters: it leaves `isAnalyzing` true and `currentJobId` set, and
since the component never clears the pending `setTimeout`, the already
scheduled continuation still runs: it issues another status check,
surfaces events, and on completion commits the result to the global
store via `addAnalysisResult` (with `image` falling back to `""`
because `capturedImage` was cleared) — contradicting the specified
cancellation behavior. -/
theorem c2_reset_does_not_cancel_poll :
    (resetScanner midPollState).isAnalyzing = true ∧
    (resetScanner midPollState).currentJobId = some "job-1" ∧
    (resetScanner midPollState).capturedImage = none ∧
    (checkStatus (resetScanner midPollState).capturedImage 1 tailDone).checks = 1 ∧
    (checkStatus (resetScanner midPollState).capturedImage 1 tailDone).events =
      [.statusUpdate "completed", .commitResult (mkStoredRecord none doneR),
       .toastSuccess completedToast, .analyzingStopped] ∧
    (checkStatus (resetScanner midPollState).capturedImage 1 tailDone).outcome
      = .completed doneR ∧
    (mkStoredRecord none doneR).image = "" := by
  decide

end GymRegister
